import Mathlib

/-!
Verification development for the `go-ecs-utils` repository, centred on the
EC2 filter-token parser (`ParseEc2Filter`, `FilterString`) and the Fargate
network-configuration resolver (`restrictToVpcs`, `vpcConfigForNet`,
`vpcConfigForHost`, `vpcConfigForCluster`).

The repository contains two variants of the `overrun` tool:
- the current variant: `src/overrun/main.go` together with the companion
  filter file (the unnamed source file `src/unnamed/part_000`), and
- a legacy variant: `src/overrun/filter.go`, which bundles an older parser
  and older resolver functions.
Definitions below are transcribed from the Go source.  Functions suffixed
`Legacy` come from `src/overrun/filter.go`; unsuffixed resolver functions
come from `src/overrun/main.go`; the unsuffixed parser comes from
`src/unnamed/part_000`.

Modelling conventions:
- Go strings are Lean `String`s; the regular-expression matching of the
  parser is carried out on `List Char` with structural recursion so that
  all functions evaluate by kernel reduction.
- Go's RE2 semantics are preserved: `.` matches every character except
  newline, a negated class such as `[^,]` does match newline, and the
  patterns are anchored exactly as written in the source.
- AWS SDK calls are modelled by a record of query functions (`CloudApi`);
  each call returns `Except String` mirroring Go's `(result, error)` pair.
- Pointer-typed response fields that the Go code tests against `nil`
  (`Subnet.VpcId`, `ContainerInstance.Ec2InstanceId`) are `Option String`;
  fields the code dereferences unconditionally are plain `String`s
  (inputs that would make the Go code panic on a nil dereference are
  outside the modelled domain).
- The external `ec2.Filter.String` rendering method of the AWS SDK is not
  part of this repository; it is abstracted as the `filterStr` parameter.
- Go iterates maps in an unspecified, run-dependent order.  The map built
  in `vpcConfigForHost` is modelled by its key list in insertion order,
  and the range order of the final loop is an explicit enumeration
  function `mapOrder` carried in the execution context.
-/

namespace EcsUtils

/-- `ec2.Filter`: an attribute name with an ordered list of values. -/
structure Ec2Filter where
  name : String
  values : List String
deriving Repr, DecidableEq

/-- The Go zero value `ec2.Filter{}` returned on the unrecognized paths. -/
def emptyEc2Filter : Ec2Filter := ⟨"", []⟩

/-- Constant `FilterInstanceId` of `src/unnamed/part_000`. -/
def FilterInstanceId : String := "instance-id"

/-- Constant `FilterSubnetId` of `src/unnamed/part_000`. -/
def FilterSubnetId : String := "subnet-id"

/-- Constant `FilterSecurityGroupId` of `src/unnamed/part_000`. -/
def FilterSecurityGroupId : String := "group-id"

/-- Constant `FilterVpcId` of `src/unnamed/part_000`. -/
def FilterVpcId : String := "vpc-id"

/-- Anchored-at-start match of a literal pattern, as in Go
`regexp.MatchString("^i-", s)`: the pattern characters must be an initial
segment of the subject. -/
def hasPref : List Char → List Char → Bool
  | [], _ => true
  | _ :: _, [] => false
  | p :: ps, c :: cs => p == c && hasPref ps cs

/-- Go `strings.Split` with a one-character separator. -/
def splitOnChar (sep : Char) : List Char → List (List Char)
  | [] => [[]]
  | c :: cs =>
    match splitOnChar sep cs with
    | [] => [[]]
    | h :: t => if c == sep then [] :: h :: t else (c :: h) :: t

/-- Go `strings.SplitN(s, sep, 2)`: split at the first occurrence of the
separator, or report that the separator does not occur. -/
def splitAtFirst (sep : Char) : List Char → Option (List Char × List Char)
  | [] => none
  | c :: cs =>
    if c == sep then some ([], cs)
    else
      match splitAtFirst sep cs with
      | none => none
      | some (pre, post) => some (c :: pre, post)

/-- RE2 `.` excludes the newline character; a run matched by `.*` is
therefore newline-free. -/
def noNewline (cs : List Char) : Bool := cs.all (fun c => c != '\n')

/-- Match of `MatchLongFilter`, the anchored Go pattern
`^Name=([^,]+),Values=(.*)$`, returning the two captured groups
(the name group and the values group).  The name group is the nonempty
comma-free run after `Name=` up to the first comma, which must be
followed by the literal `Values=`; the values group is the remainder,
which `.*` requires to be newline-free. -/
def matchLongChars (cs : List Char) : Option (List Char × List Char) :=
  if hasPref "Name=".toList cs then
    match splitAtFirst ',' (cs.drop 5) with
    | some (name, post) =>
      if !name.isEmpty && hasPref "Values=".toList post && noNewline (post.drop 7) then
        some (name, post.drop 7)
      else none
    | none => none
  else none

/-- Match of `MatchShortFilter`, the anchored Go pattern `^[^=]+=.*$`:
a nonempty `=`-free run, then `=`, then a newline-free remainder. -/
def matchShortChars (cs : List Char) : Bool :=
  match splitAtFirst '=' cs with
  | some (name, post) => !name.isEmpty && noNewline post
  | none => false

/-- `ParseEc2Filter` of `src/unnamed/part_000`: the variant that uses the
captured name group (`subs[1]`) for the long form and labels the `sg-`
shorthand with `FilterSecurityGroupId = "group-id"`. -/
def parseEc2FilterChars (cs : List Char) (defaultFilter : Option String) :
    Bool × Ec2Filter :=
  match matchLongChars cs with
  | some (name, vals) =>
    (true, ⟨name.asString, (splitOnChar ',' vals).map List.asString⟩)
  | none =>
    if matchShortChars cs then
      match splitAtFirst '=' cs with
      | some (name, post) =>
        (true, ⟨name.asString, (splitOnChar ',' post).map List.asString⟩)
      | none => (false, emptyEc2Filter)
    else if hasPref "-".toList cs then
      (false, emptyEc2Filter)
    else if hasPref "i-".toList cs then
      (true, ⟨FilterInstanceId, [cs.asString]⟩)
    else if hasPref "subnet-".toList cs then
      (true, ⟨FilterSubnetId, [cs.asString]⟩)
    else if hasPref "vpc-".toList cs then
      (true, ⟨FilterVpcId, [cs.asString]⟩)
    else if hasPref "sg-".toList cs then
      (true, ⟨FilterSecurityGroupId, [cs.asString]⟩)
    else
      match defaultFilter with
      | some name => (true, ⟨name, [cs.asString]⟩)
      | none => (false, emptyEc2Filter)

/-- String-level wrapper for the `src/unnamed/part_000` parser. -/
def ParseEc2Filter (filter : String) (defaultFilter : Option String) :
    Bool × Ec2Filter :=
  parseEc2FilterChars filter.toList defaultFilter

/-- `ParseEc2Filter` of `src/overrun/filter.go`: the legacy variant.  On a
long-form match it uses `subs[0]` — the whole matched string — as the
filter name and comma-splits `subs[1]` — the name group — as the values,
and it labels the `sg-` shorthand `"security-id"`. -/
def parseEc2FilterLegacyChars (cs : List Char) (defaultFilter : Option String) :
    Bool × Ec2Filter :=
  match matchLongChars cs with
  | some (name, _) =>
    (true, ⟨cs.asString, (splitOnChar ',' name).map List.asString⟩)
  | none =>
    if matchShortChars cs then
      match splitAtFirst '=' cs with
      | some (name, post) =>
        (true, ⟨name.asString, (splitOnChar ',' post).map List.asString⟩)
      | none => (false, emptyEc2Filter)
    else if hasPref "-".toList cs then
      (false, emptyEc2Filter)
    else if hasPref "i-".toList cs then
      (true, ⟨"instance-id", [cs.asString]⟩)
    else if hasPref "subnet-".toList cs then
      (true, ⟨"subnet-id", [cs.asString]⟩)
    else if hasPref "vpc-".toList cs then
      (true, ⟨"vpc-id", [cs.asString]⟩)
    else if hasPref "sg-".toList cs then
      (true, ⟨"security-id", [cs.asString]⟩)
    else
      match defaultFilter with
      | some name => (true, ⟨name, [cs.asString]⟩)
      | none => (false, emptyEc2Filter)

/-- String-level wrapper for the `src/overrun/filter.go` parser. -/
def ParseEc2FilterLegacy (filter : String) (defaultFilter : Option String) :
    Bool × Ec2Filter :=
  parseEc2FilterLegacyChars filter.toList defaultFilter

/-- `FilterString`: render a filter list by joining each filter's SDK
string form with single spaces.  `fstr` abstracts the external
`ec2.Filter.String` method of the AWS SDK, which is not part of this
repository. -/
def FilterString (fstr : Ec2Filter → String) (filters : List Ec2Filter) : String :=
  String.intercalate " " (filters.map fstr)

/-- `ec2.Subnet` projection: `VpcId` is nil-checked by the code, so it is
an `Option`; `SubnetId` is dereferenced unconditionally. -/
structure Subnet where
  vpcId : Option String
  subnetId : String
deriving Repr, DecidableEq

/-- `ec2.SecurityGroup` projection: only `GroupId` is consumed. -/
structure SecurityGroup where
  groupId : String
deriving Repr, DecidableEq

/-- `ec2.Instance` projection: `SubnetId` and the attached groups. -/
structure Ec2Instance where
  subnetId : String
  securityGroups : List SecurityGroup
deriving Repr, DecidableEq

/-- `ec2.RunInstancesOutput` reservation: its instance list. -/
structure Reservation where
  instances : List Ec2Instance
deriving Repr, DecidableEq

/-- `ec2.Vpc` projection: only `VpcId` is consumed. -/
structure Vpc where
  vpcId : String
deriving Repr, DecidableEq

/-- `ecs.ContainerInstance` projection: `Ec2InstanceId` is nil-checked by
the code, so it is an `Option`. -/
structure ContainerInstance where
  ec2InstanceId : Option String
deriving Repr, DecidableEq

/-- `ecs.AwsVpcConfiguration`: the resolved network configuration.
`assignPublicIp = true` stands for `ecs.AssignPublicIpEnabled`. -/
structure AwsVpcConfiguration where
  subnets : List String
  securityGroups : List String
  assignPublicIp : Bool
deriving Repr, DecidableEq

/-- The cloud-provider query boundary.  Each field models one SDK request;
the argument is the filter list placed in the request input (for the ECS
calls, the cluster name and the ARN list).  `Except String` mirrors Go's
`(result, error)` convention. -/
structure CloudApi where
  describeInstances : List Ec2Filter → Except String (List Reservation)
  describeSubnets : List Ec2Filter → Except String (List Subnet)
  describeSecurityGroups : List Ec2Filter → Except String (List SecurityGroup)
  describeVpcs : List Ec2Filter → Except String (List Vpc)
  listContainerInstances : String → Except String (List String)
  describeContainerInstances : String → List String → Except String (List ContainerInstance)

/-- The fields of `ParsedArgs` consumed by the resolver functions. -/
structure Prefs where
  cluster : String
  vpcFilters : List Ec2Filter
  doFilterVpc : Bool
  vpcSgFilters : List Ec2Filter
  doFilterSgs : Bool
  netPublicIp : Bool

/-- `ExecutionContext` plus the ambient runtime: the query boundary, the
accumulated `AnyFilters`, the external `ec2.Filter.String` rendering
(`filterStr`), and the run-dependent order in which a Go `range` over the
security-group map enumerates a given key set (`mapOrder`). -/
structure Ctx where
  api : CloudApi
  anyFilters : List Ec2Filter
  filterStr : Ec2Filter → String
  mapOrder : List String → List String

/-- `secGroupsQuery` of `src/overrun/main.go`: describe security groups
with the given filters plus the context's `AnyFilters`, projecting each
result to its `GroupId`. -/
def secGroupsQuery (ctx : Ctx) (filters : List Ec2Filter) :
    Except String (List String) :=
  match ctx.api.describeSecurityGroups (filters ++ ctx.anyFilters) with
  | .error e => .error e
  | .ok groups => .ok (groups.map SecurityGroup.groupId)

/-- The subnet-collection loop of `vpcConfigForNet`, with `i` the running
index of the Go `range` loop: a subnet id is appended exactly when the
index is below 10 and the subnet's VPC equals the first result's VPC. -/
def collectVpcSubnetsAux (vpcId : Option String) : Nat → List Subnet → List String
  | _, [] => []
  | i, s :: rest =>
    if i < 10 ∧ s.vpcId = vpcId then
      s.subnetId :: collectVpcSubnetsAux vpcId (i + 1) rest
    else
      collectVpcSubnetsAux vpcId (i + 1) rest

/-- The subnet-collection loop of `vpcConfigForNet`, started at index 0. -/
def collectVpcSubnets (subs : List Subnet) (vpcId : Option String) : List String :=
  collectVpcSubnetsAux vpcId 0 subs

/-- `vpcConfigForNet` of `src/overrun/main.go` (explicit-subnet-query
mode).  Note that the security-group query is issued on every success
path, with no guard on `VpcSgFilters` being nonempty. -/
def vpcConfigForNet (prefs : Prefs) (ctx : Ctx) (filters : List Ec2Filter) :
    Except String AwsVpcConfiguration :=
  match ctx.api.describeSubnets (filters ++ ctx.anyFilters) with
  | .error e => .error e
  | .ok subs =>
    match subs with
    | s0 :: rest =>
      match s0.vpcId with
      | some v =>
        match secGroupsQuery ctx prefs.vpcSgFilters with
        | .error e => .error e
        | .ok sgResult =>
          .ok ⟨collectVpcSubnets (s0 :: rest) (some v),
            if sgResult.length > 10 then sgResult.take 10 else sgResult,
            prefs.netPublicIp⟩
      | none =>
        .error ("failed to find subnet matching filters: " ++
          FilterString ctx.filterStr filters)
    | [] =>
      .error ("failed to find subnet matching filters: " ++
        FilterString ctx.filterStr filters)

/-- Go map insertion restricted to its key set: inserting an existing key
leaves the set unchanged. -/
def insertKey (keys : List String) (id : String) : List String :=
  if id ∈ keys then keys else keys ++ [id]

/-- The key set of `sgroupMap` after the first loop of
`vpcConfigForHost`: every attached group id, de-duplicated, in first
insertion order. -/
def hostSgKeys (inst : Ec2Instance) : List String :=
  inst.securityGroups.foldl (fun ks g => insertKey ks g.groupId) []

/-- The `DoFilterSgs` loop of `vpcConfigForHost`: each queried id is
inserted only while the map holds fewer than 10 keys. -/
def addSgCapped (keys : List String) (ids : List String) : List String :=
  ids.foldl (fun ks id => if ks.length < 10 then insertKey ks id else ks) keys

/-- The security-group map key set of `vpcConfigForHost` after both
insertion loops: the instance's attached groups, then — only when
`DoFilterSgs` is set — the queried groups, inserted while the map holds
fewer than 10 keys. -/
def hostSgList (prefs : Prefs) (ctx : Ctx) (inst : Ec2Instance) :
    Except String (List String) :=
  if prefs.doFilterSgs then
    match secGroupsQuery ctx prefs.vpcSgFilters with
    | .error e => .error e
    | .ok sgResult => .ok (addSgCapped (hostSgKeys inst) sgResult)
  else .ok (hostSgKeys inst)

/-- `vpcConfigForHost` of `src/overrun/main.go` (explicit-host mode).
The final loop ranges over the security-group map and stops after 10
entries; the range order is the context's `mapOrder` applied to the key
set. -/
def vpcConfigForHost (prefs : Prefs) (ctx : Ctx) (filters : List Ec2Filter) :
    Except String AwsVpcConfiguration :=
  match ctx.api.describeInstances (filters ++ ctx.anyFilters) with
  | .error e => .error e
  | .ok reservations =>
    match reservations with
    | ⟨inst :: _⟩ :: _ =>
      match hostSgList prefs ctx inst with
      | .error e => .error e
      | .ok keys =>
        .ok ⟨[inst.subnetId], (ctx.mapOrder keys).take 10, prefs.netPublicIp⟩
    | _ =>
      .error ("failed to find instance matching filter: " ++
        FilterString ctx.filterStr filters)

/-- The error constructed by `vpcConfigForCluster` when the cluster has no
describable container instances. -/
def clusterError (cluster : String) : String :=
  "no describable container instances running in cluster " ++ cluster ++
    ". please specify --fargate:net or --fargate:host"

/-- `vpcConfigForCluster` of `src/overrun/main.go` (cluster-implied mode):
list the cluster's container instances, describe them, collect every
non-nil `Ec2InstanceId`, and delegate to the explicit-host path with one
synthetic `instance-id` filter carrying the collected ids. -/
def vpcConfigForCluster (prefs : Prefs) (ctx : Ctx) :
    Except String AwsVpcConfiguration :=
  match ctx.api.listContainerInstances prefs.cluster with
  | .error e => .error e
  | .ok arns =>
    match arns with
    | [] => .error (clusterError prefs.cluster)
    | _ :: _ =>
      match ctx.api.describeContainerInstances prefs.cluster arns with
      | .error e => .error e
      | .ok cis =>
        match cis with
        | [] => .error (clusterError prefs.cluster)
        | _ :: _ =>
          let instanceIds := cis.filterMap ContainerInstance.ec2InstanceId
          vpcConfigForHost prefs ctx [⟨FilterInstanceId, instanceIds⟩]

/-- `restrictToVpcs` of `src/overrun/main.go`, VPC-query arm: describe
VPCs with the caller's VPC filters plus `AnyFilters`; a nonempty result
synthesizes one `vpc-id` filter over all matching ids, an empty result
yields no restriction and no error. -/
def restrictToVpcsQuery (prefs : Prefs) (ctx : Ctx) :
    Except String (Option Ec2Filter) :=
  match ctx.api.describeVpcs (prefs.vpcFilters ++ ctx.anyFilters) with
  | .error e => .error e
  | .ok vpcs =>
    match vpcs with
    | [] => .ok none
    | _ :: _ => .ok (some ⟨FilterVpcId, vpcs.map Vpc.vpcId⟩)

/-- `restrictToVpcs` of `src/overrun/main.go`: with VPC scoping off the
result is `(nil, nil)`; with scoping on, a first filter already named
`vpc-id` is used directly, otherwise the VPC query decides. -/
def restrictToVpcs (prefs : Prefs) (ctx : Ctx) :
    Except String (Option Ec2Filter) :=
  if prefs.doFilterVpc then
    match prefs.vpcFilters with
    | f0 :: _ =>
      if f0.name = FilterVpcId then .ok (some f0)
      else restrictToVpcsQuery prefs ctx
    | [] => restrictToVpcsQuery prefs ctx
  else .ok none

/-- The caller glue in `buildRunTaskInput` of `src/overrun/main.go`: the
filter returned by `restrictToVpcs`, when present, is appended to the
context's `AnyFilters`; when absent, `AnyFilters` is left unchanged. -/
def resolveAnyFilters (prefs : Prefs) (ctx : Ctx) :
    Except String (List Ec2Filter) :=
  match restrictToVpcs prefs ctx with
  | .error e => .error e
  | .ok (some f) => .ok (ctx.anyFilters ++ [f])
  | .ok none => .ok ctx.anyFilters

/-- `secGroupsQuery` of the legacy `src/overrun/filter.go` variant: no
`AnyFilters` are appended. -/
def secGroupsQueryLegacy (api : CloudApi) (filters : List Ec2Filter) :
    Except String (List String) :=
  match api.describeSecurityGroups filters with
  | .error e => .error e
  | .ok groups => .ok (groups.map SecurityGroup.groupId)

/-- `vpcConfigForNet` of the legacy `src/overrun/filter.go` variant: the
security-group query is guarded by `len(prefs.VpcSgFilters) > 0`, and the
security-group list is left empty otherwise. -/
def vpcConfigForNetLegacy (prefs : Prefs) (api : CloudApi)
    (fstr : Ec2Filter → String) (filters : List Ec2Filter) :
    Except String AwsVpcConfiguration :=
  match api.describeSubnets filters with
  | .error e => .error e
  | .ok subs =>
    match subs with
    | s0 :: rest =>
      match s0.vpcId with
      | some v =>
        match
          if prefs.vpcSgFilters.length > 0 then
            secGroupsQueryLegacy api prefs.vpcSgFilters
          else .ok [] with
        | .error e => .error e
        | .ok sgroups =>
          .ok ⟨collectVpcSubnets (s0 :: rest) (some v), sgroups, prefs.netPublicIp⟩
      | none =>
        .error ("failed to find subnet matching filters: " ++ FilterString fstr filters)
    | [] =>
      .error ("failed to find subnet matching filters: " ++ FilterString fstr filters)

/-- The spec's reading of the subnet cap in explicit-subnet-query mode
(claim C5): up to 10 subnet ids collected from among all returned subnets
whose VPC matches the first result's VPC, in result order.  Kept separate
from `collectVpcSubnets`, which transcribes the source loop, so the two
can be compared. -/
def specCollectVpcSubnets (subs : List Subnet) (vpcId : Option String) :
    List String :=
  ((subs.filter (fun s => decide (s.vpcId = vpcId))).map Subnet.subnetId).take 10

/-- Concrete query oracle: every call succeeds with an empty result. -/
def apiEmpty : CloudApi :=
  ⟨fun _ => .ok [], fun _ => .ok [], fun _ => .ok [], fun _ => .ok [],
   fun _ => .ok [], fun _ _ => .ok []⟩

/-- Concrete preferences: no filter supplied anywhere, scoping off. -/
def prefsPlain : Prefs := ⟨"test-cluster", [], false, [], false, false⟩

/-- Concrete execution context over a given oracle, rendering a filter by
its name and enumerating map keys in insertion order. -/
def mkCtx (api : CloudApi) : Ctx := ⟨api, [], Ec2Filter.name, id⟩

/-- Oracle for the explicit-subnet counterexamples: one subnet in
`vpc-1`, one security group `sg-1`. -/
def apiNetOne : CloudApi :=
  ⟨fun _ => .ok [], fun _ => .ok [⟨some "vpc-1", "subnet-1"⟩],
   fun _ => .ok [⟨"sg-1"⟩], fun _ => .ok [], fun _ => .ok [], fun _ _ => .ok []⟩

/-- Oracle for the cluster-implied counterexample: one container-instance
ARN whose described container instance has no `Ec2InstanceId`, while the
describe-instances query still finds a host. -/
def apiClusterNoIds : CloudApi :=
  ⟨fun _ => .ok [⟨[⟨"subnet-9", [⟨"sg-9"⟩]⟩]⟩], fun _ => .ok [],
   fun _ => .ok [], fun _ => .ok [],
   fun _ => .ok ["arn-1"], fun _ _ => .ok [⟨none⟩]⟩

/-- Eleven subnets spanning two VPCs: positions 0 and 10 belong to
`vpc-A`, positions 1 through 9 to `vpc-B`. -/
def subsTwoVpc : List Subnet :=
  [⟨some "vpc-A", "sub-0"⟩, ⟨some "vpc-B", "sub-1"⟩, ⟨some "vpc-B", "sub-2"⟩,
   ⟨some "vpc-B", "sub-3"⟩, ⟨some "vpc-B", "sub-4"⟩, ⟨some "vpc-B", "sub-5"⟩,
   ⟨some "vpc-B", "sub-6"⟩, ⟨some "vpc-B", "sub-7"⟩, ⟨some "vpc-B", "sub-8"⟩,
   ⟨some "vpc-B", "sub-9"⟩, ⟨some "vpc-A", "sub-10"⟩]

/-- Oracle returning the two-VPC subnet list and nothing else. -/
def apiTwoVpc : CloudApi :=
  ⟨fun _ => .ok [], fun _ => .ok subsTwoVpc, fun _ => .ok [],
   fun _ => .ok [], fun _ => .ok [], fun _ _ => .ok []⟩

/-- A host with eleven distinct attached security groups. -/
def instElevenSgs : Ec2Instance :=
  ⟨"subnet-h",
   [⟨"sg-00"⟩, ⟨"sg-01"⟩, ⟨"sg-02"⟩, ⟨"sg-03"⟩, ⟨"sg-04"⟩, ⟨"sg-05"⟩,
    ⟨"sg-06"⟩, ⟨"sg-07"⟩, ⟨"sg-08"⟩, ⟨"sg-09"⟩, ⟨"sg-10"⟩]⟩

/-- Oracle whose describe-instances call finds exactly the eleven-group
host. -/
def apiHostEleven : CloudApi :=
  ⟨fun _ => .ok [⟨[instElevenSgs]⟩], fun _ => .ok [], fun _ => .ok [],
   fun _ => .ok [], fun _ => .ok [], fun _ _ => .ok []⟩

/-- The eleven-group context with insertion-order map enumeration. -/
def ctxHostId : Ctx := ⟨apiHostEleven, [], Ec2Filter.name, id⟩

/-- The same context as `ctxHostId` except that the runtime happens to
enumerate the security-group map in reversed order. -/
def ctxHostRev : Ctx := ⟨apiHostEleven, [], Ec2Filter.name, List.reverse⟩

/-- A host with two distinct attached security groups. -/
def instTwoSgs : Ec2Instance := ⟨"subnet-h", [⟨"sg-a"⟩, ⟨"sg-b"⟩]⟩

/-- Oracle whose describe-instances call finds the two-group host. -/
def apiHostTwo : CloudApi :=
  ⟨fun _ => .ok [⟨[instTwoSgs]⟩], fun _ => .ok [], fun _ => .ok [],
   fun _ => .ok [], fun _ => .ok [], fun _ _ => .ok []⟩

/-- Preferences for the VPC-scoping claim: scoping on, one tag filter. -/
def prefsVpcTag : Prefs :=
  ⟨"test-cluster", [⟨"tag:Name", ["my-vpc"]⟩], true, [], false, false⟩

theorem capTen_eq_take (l : List String) :
    (if l.length > 10 then l.take 10 else l) = l.take 10 := by
  split
  · rfl
  · exact (List.take_of_length_le (by omega)).symm

theorem collectVpcSubnetsAux_of_ge (v : Option String) (l : List Subnet) :
    ∀ i, 10 ≤ i → collectVpcSubnetsAux v i l = [] := by
  induction l with
  | nil => intro i _; rfl
  | cons s rest ih =>
    intro i hi
    unfold collectVpcSubnetsAux
    rw [if_neg (fun hc => absurd hc.1 (by omega))]
    exact ih (i + 1) (by omega)

theorem collectVpcSubnetsAux_eq (v : Option String) (l : List Subnet) :
    ∀ i, collectVpcSubnetsAux v i l =
      ((l.take (10 - i)).filter (fun s => decide (s.vpcId = v))).map Subnet.subnetId := by
  induction l with
  | nil => intro i; simp [collectVpcSubnetsAux]
  | cons s rest ih =>
    intro i
    by_cases hi : i < 10
    · have htake : (10 - i) = (10 - (i + 1)) + 1 := by omega
      rw [htake]
      unfold collectVpcSubnetsAux
      by_cases hv : s.vpcId = v
      · rw [if_pos ⟨hi, hv⟩]
        simp [List.filter, hv, ih (i + 1)]
      · rw [if_neg (fun hc => absurd hc.2 hv)]
        simp [List.filter, hv, ih (i + 1)]
    · have h0 : (10 - i) = 0 := by omega
      rw [h0, collectVpcSubnetsAux_of_ge v (s :: rest) i (by omega)]
      simp

/-- What the source's subnet loop computes: the matching subnets among the
FIRST TEN results, not the first ten matching subnets. -/
theorem collectVpcSubnets_eq_take_then_filter (subs : List Subnet) (v : Option String) :
    collectVpcSubnets subs v =
      ((subs.take 10).filter (fun s => decide (s.vpcId = v))).map Subnet.subnetId := by
  have h := collectVpcSubnetsAux_eq v subs 0
  simpa [collectVpcSubnets] using h

theorem collectVpcSubnets_head_cons (s0 : Subnet) (rest : List Subnet)
    (v : String) (hv : s0.vpcId = some v) :
    collectVpcSubnets (s0 :: rest) (some v) =
      s0.subnetId :: collectVpcSubnetsAux (some v) 1 rest := by
  unfold collectVpcSubnets
  rw [collectVpcSubnetsAux, if_pos ⟨by omega, hv⟩]

/-- C1 — For a long-form token `Name=<name>,Values=<v1,...,vn>` the parser
of `src/unnamed/part_000` yields the captured name group as the filter
name and the comma-split values, whereas the `src/overrun/filter.go`
variant uses the whole matched string as the name and splits the name
group as the values.  Evaluation of both variants at the failing input
`Name=X,Values=A,B`. -/
theorem C1_long_form_name_group_vs_whole_match :
    ParseEc2Filter "Name=X,Values=A,B" none = (true, ⟨"X", ["A", "B"]⟩) ∧
    ParseEc2FilterLegacy "Name=X,Values=A,B" none =
      (true, ⟨"Name=X,Values=A,B", ["X"]⟩) := by
  constructor <;> decide

/-- C2 (counterexample) — the claim says every token beginning with `-`
is reported not recognized; but `-anything=1,2` matches the short-form
pattern, which both parser variants test BEFORE the `-` escape, so it is
recognized as a filter named `-anything`. -/
theorem C2_dash_token_recognized_counterexample :
    ParseEc2Filter "-anything=1,2" none = (true, ⟨"-anything", ["1", "2"]⟩) ∧
    ParseEc2FilterLegacy "-anything=1,2" none =
      (true, ⟨"-anything", ["1", "2"]⟩) := by
  constructor <;> decide

/-- C2 (amended) — a token beginning with `-` is reported not recognized,
regardless of the fallback argument, provided it does not match the
short-form pattern `^[^=]+=.*$` (the long form cannot match a `-` head,
and the short-form check precedes the `-` escape in both variants). -/
theorem C2_dash_token_not_recognized (cs : List Char) (fb : Option String)
    (h : matchShortChars ('-' :: cs) = false) :
    parseEc2FilterChars ('-' :: cs) fb = (false, emptyEc2Filter) ∧
    parseEc2FilterLegacyChars ('-' :: cs) fb = (false, emptyEc2Filter) := by
  have hlong : matchLongChars ('-' :: cs) = none := rfl
  have hdash : hasPref "-".toList ('-' :: cs) = true := rfl
  constructor
  · unfold parseEc2FilterChars
    rw [hlong, h, hdash]
    simp
  · unfold parseEc2FilterLegacyChars
    rw [hlong, h, hdash]
    simp

theorem C2_dash_token_not_recognized_witness :
    matchShortChars ('-' :: "abc".toList) = false ∧
    parseEc2FilterChars ('-' :: "abc".toList) (some "tag:Name") =
      (false, emptyEc2Filter) ∧
    parseEc2FilterLegacyChars ('-' :: "abc".toList) (some "tag:Name") =
      (false, emptyEc2Filter) :=
  ⟨by decide,
   (C2_dash_token_not_recognized "abc".toList (some "tag:Name") (by decide)).1,
   (C2_dash_token_not_recognized "abc".toList (some "tag:Name") (by decide)).2⟩

/-- C3 (counterexample) — the claim says that with no security-group
filter supplied, no security-group query is issued and the resulting
security-group list is empty; but `vpcConfigForNet` of
`src/overrun/main.go` issues the query unconditionally, and here returns
`["sg-1"]` although `vpcSgFilters` is empty. -/
theorem C3_sg_list_nonempty_without_filter_counterexample :
    prefsPlain.vpcSgFilters = [] ∧
    vpcConfigForNet prefsPlain (mkCtx apiNetOne) [] =
      .ok ⟨["subnet-1"], ["sg-1"], false⟩ := by
  exact ⟨rfl, rfl⟩

/-- C3 (amended) — in the `src/overrun/main.go` variant the
security-group query is issued on every success path and its results,
capped at 10, become the security-group list even when no security-group
filter was supplied; the guard described by the claim exists only in the
legacy `src/overrun/filter.go` variant, where an empty `VpcSgFilters`
yields an empty security-group list with no query result used. -/
theorem C3_sg_query_unconditional
    (prefs : Prefs) (ctx : Ctx) (api : CloudApi) (fstr : Ec2Filter → String)
    (filters : List Ec2Filter) (v : String) (s0 : Subnet) (rest : List Subnet)
    (sgs : List SecurityGroup)
    (hempty : prefs.vpcSgFilters = [])
    (hv : s0.vpcId = some v)
    (hsub : ctx.api.describeSubnets (filters ++ ctx.anyFilters) = .ok (s0 :: rest))
    (hsg : ctx.api.describeSecurityGroups (prefs.vpcSgFilters ++ ctx.anyFilters) = .ok sgs)
    (hsubL : api.describeSubnets filters = .ok (s0 :: rest)) :
    vpcConfigForNet prefs ctx filters =
      .ok ⟨collectVpcSubnets (s0 :: rest) (some v),
        (sgs.map SecurityGroup.groupId).take 10, prefs.netPublicIp⟩ ∧
    vpcConfigForNetLegacy prefs api fstr filters =
      .ok ⟨collectVpcSubnets (s0 :: rest) (some v), [], prefs.netPublicIp⟩ := by
  constructor
  · unfold vpcConfigForNet secGroupsQuery
    rw [hsub, hsg]
    simp [hv, capTen_eq_take]
  · unfold vpcConfigForNetLegacy
    rw [hsubL]
    simp [hv, hempty]

theorem C3_sg_query_unconditional_witness :
    vpcConfigForNet prefsPlain (mkCtx apiNetOne) [] =
      .ok ⟨["subnet-1"], ["sg-1"], false⟩ ∧
    vpcConfigForNetLegacy prefsPlain apiNetOne Ec2Filter.name [] =
      .ok ⟨["subnet-1"], [], false⟩ := by
  have h := C3_sg_query_unconditional prefsPlain (mkCtx apiNetOne) apiNetOne
    Ec2Filter.name [] "vpc-1" ⟨some "vpc-1", "subnet-1"⟩ [] [⟨"sg-1"⟩]
    rfl rfl rfl rfl rfl
  exact ⟨h.1, h.2⟩

/-- C4 (counterexample) — one ARN is listed and one container instance is
described, but it has no `Ec2InstanceId`; the claim says resolution must
fail with the no-describable-container-instances error, yet the code
delegates to the explicit-host path with an empty-valued `instance-id`
filter and here SUCCEEDS with that path's result. -/
theorem C4_no_host_id_still_succeeds_counterexample :
    apiClusterNoIds.listContainerInstances prefsPlain.cluster = .ok ["arn-1"] ∧
    apiClusterNoIds.describeContainerInstances prefsPlain.cluster ["arn-1"] =
      .ok [⟨none⟩] ∧
    vpcConfigForCluster prefsPlain (mkCtx apiClusterNoIds) =
      .ok ⟨["subnet-9"], ["sg-9"], false⟩ := by
  exact ⟨rfl, rfl, rfl⟩

/-- C4 (amended) — when the ARN list and the described container-instance
list are both nonempty, `vpcConfigForCluster` always delegates to the
explicit-host path with one synthetic `instance-id` filter whose values
are the resolvable host identifiers — even when there are NONE, in which
case the filter's value list is empty; the
no-describable-container-instances error arises only from an empty ARN
list or an empty describe result. -/
theorem C4_cluster_delegates_even_without_host_ids
    (prefs : Prefs) (ctx : Ctx) (arns : List String) (cis : List ContainerInstance)
    (h1 : ctx.api.listContainerInstances prefs.cluster = .ok arns)
    (h2 : arns ≠ [])
    (h3 : ctx.api.describeContainerInstances prefs.cluster arns = .ok cis)
    (h4 : cis ≠ []) :
    vpcConfigForCluster prefs ctx =
      vpcConfigForHost prefs ctx
        [⟨FilterInstanceId, cis.filterMap ContainerInstance.ec2InstanceId⟩] := by
  cases arns with
  | nil => exact absurd rfl h2
  | cons a as =>
    cases cis with
    | nil => exact absurd rfl h4
    | cons c cs2 => simp [vpcConfigForCluster, h1, h3]

theorem C4_cluster_delegates_even_without_host_ids_witness :
    vpcConfigForCluster prefsPlain (mkCtx apiClusterNoIds) =
      vpcConfigForHost prefsPlain (mkCtx apiClusterNoIds)
        [⟨FilterInstanceId,
          [(⟨none⟩ : ContainerInstance)].filterMap ContainerInstance.ec2InstanceId⟩] :=
  C4_cluster_delegates_even_without_host_ids prefsPlain (mkCtx apiClusterNoIds)
    ["arn-1"] [⟨none⟩] rfl (by decide) rfl (by decide)

/-- C5 (counterexample) — eleven subnets, positions 0 and 10 in the first
result's VPC: the claim (collect up to 10 matches from among ALL results)
predicts `["sub-0", "sub-10"]`, as `specCollectVpcSubnets` computes, but
the code returns only `["sub-0"]` because its cap `i < 10` is checked
against the result index. -/
theorem C5_subnet_window_counterexample :
    vpcConfigForNet prefsPlain (mkCtx apiTwoVpc) [] =
      .ok ⟨["sub-0"], [], false⟩ ∧
    specCollectVpcSubnets subsTwoVpc (some "vpc-A") = ["sub-0", "sub-10"] := by
  exact ⟨rfl, by decide⟩

/-- C5 (amended) — on success the subnet list consists of the matching
subnets among the FIRST TEN results only, in result order: the loop
compares its 10-cap against the result index, so a subnet of the
authoritative VPC at position 10 or later is excluded even when fewer
than 10 matches were collected; within that window, subnets of a
different VPC are silently excluded, and the list can never exceed 10
entries. -/
theorem C5_subnets_from_first_ten
    (prefs : Prefs) (ctx : Ctx) (filters : List Ec2Filter)
    (v : String) (s0 : Subnet) (rest : List Subnet) (sgs : List SecurityGroup)
    (hv : s0.vpcId = some v)
    (hsub : ctx.api.describeSubnets (filters ++ ctx.anyFilters) = .ok (s0 :: rest))
    (hsg : ctx.api.describeSecurityGroups (prefs.vpcSgFilters ++ ctx.anyFilters) = .ok sgs) :
    vpcConfigForNet prefs ctx filters =
      .ok ⟨(((s0 :: rest).take 10).filter
              (fun s => decide (s.vpcId = some v))).map Subnet.subnetId,
           (sgs.map SecurityGroup.groupId).take 10, prefs.netPublicIp⟩ := by
  unfold vpcConfigForNet secGroupsQuery
  rw [hsub, hsg]
  simp [hv, capTen_eq_take, collectVpcSubnets_eq_take_then_filter]

theorem C5_subnets_from_first_ten_witness :
    vpcConfigForNet prefsPlain (mkCtx apiTwoVpc) [] =
      .ok ⟨((subsTwoVpc.take 10).filter
              (fun s => decide (s.vpcId = some "vpc-A"))).map Subnet.subnetId,
           [], false⟩ :=
  C5_subnets_from_first_ten prefsPlain (mkCtx apiTwoVpc) [] "vpc-A"
    ⟨some "vpc-A", "sub-0"⟩ (subsTwoVpc.drop 1) [] rfl rfl rfl

/-- C6 — in every resolution mode of `src/overrun/main.go`, a successful
result carries at least one subnet identifier: the zero-usable-subnet
outcomes are all error returns. -/
theorem C6_success_has_subnet (prefs : Prefs) (ctx : Ctx)
    (filters : List Ec2Filter) (cfg : AwsVpcConfiguration) :
    (vpcConfigForNet prefs ctx filters = .ok cfg → cfg.subnets ≠ []) ∧
    (vpcConfigForHost prefs ctx filters = .ok cfg → cfg.subnets ≠ []) ∧
    (vpcConfigForCluster prefs ctx = .ok cfg → cfg.subnets ≠ []) := by
  have hostNE : ∀ (f : List Ec2Filter) (c : AwsVpcConfiguration),
      vpcConfigForHost prefs ctx f = .ok c → c.subnets ≠ [] := by
    intro f c h
    unfold vpcConfigForHost at h
    split at h
    · simp at h
    · split at h
      · split at h
        · simp at h
        · injection h with h'
          rw [← h']
          simp
      · simp at h
  refine ⟨?_, hostNE filters cfg, ?_⟩
  · intro h
    unfold vpcConfigForNet at h
    split at h
    · simp at h
    · split at h
      · split at h
        · split at h
          · simp at h
          · injection h with h'
            rw [← h']
            rename_i v heq _ _ _
            simp [collectVpcSubnets_head_cons _ _ v heq]
        · simp at h
      · simp at h
  · intro h
    unfold vpcConfigForCluster at h
    split at h
    · simp at h
    · split at h
      · simp at h
      · split at h
        · simp at h
        · split at h
          · simp at h
          · exact hostNE _ _ h

theorem C6_success_has_subnet_witness :
    (⟨["subnet-h"], ["sg-a", "sg-b"], false⟩ : AwsVpcConfiguration).subnets ≠ [] :=
  (C6_success_has_subnet prefsPlain (mkCtx apiHostTwo) []
    ⟨["subnet-h"], ["sg-a", "sg-b"], false⟩).2.1 rfl

/-- C8 — with VPC scoping requested and a first VPC filter that is not an
explicit `vpc-id` filter, a VPC query that succeeds with zero matches
makes `restrictToVpcs` return neither a filter nor an error, and the
caller's `AnyFilters` are left unchanged, so resolution proceeds without
a VPC restriction. -/
theorem C8_vpc_query_empty_no_restriction (prefs : Prefs) (ctx : Ctx)
    (hvpc : prefs.doFilterVpc = true)
    (hname : ∀ f0 rest, prefs.vpcFilters = f0 :: rest → f0.name ≠ FilterVpcId)
    (hq : ctx.api.describeVpcs (prefs.vpcFilters ++ ctx.anyFilters) = .ok []) :
    restrictToVpcs prefs ctx = .ok none ∧
    resolveAnyFilters prefs ctx = .ok ctx.anyFilters := by
  have hquery : restrictToVpcsQuery prefs ctx = .ok none := by
    unfold restrictToVpcsQuery
    rw [hq]
  have h1 : restrictToVpcs prefs ctx = .ok none := by
    cases hvf : prefs.vpcFilters with
    | nil => simp [restrictToVpcs, hvpc, hvf, hquery]
    | cons f0 rest => simp [restrictToVpcs, hvpc, hvf, hname f0 rest hvf, hquery]
  refine ⟨h1, ?_⟩
  simp [resolveAnyFilters, h1]

theorem C8_vpc_query_empty_no_restriction_witness :
    restrictToVpcs prefsVpcTag (mkCtx apiEmpty) = .ok none ∧
    resolveAnyFilters prefsVpcTag (mkCtx apiEmpty) =
      .ok (mkCtx apiEmpty).anyFilters :=
  C8_vpc_query_empty_no_restriction prefsVpcTag (mkCtx apiEmpty) rfl
    (by
      intro f0 rest h
      have h' : [(⟨"tag:Name", ["my-vpc"]⟩ : Ec2Filter)] = f0 :: rest := h
      injection h' with h1 h2
      rw [← h1]
      decide)
    rfl

/-- C9 — in explicit-host mode, a successful describe-instances query
with zero reservations (or a first reservation with zero instances)
yields an error whose message contains — indeed ends with — the
`FilterString` rendering of the filters used. -/
theorem C9_no_instance_error_contains_filters (prefs : Prefs) (ctx : Ctx)
    (filters : List Ec2Filter) (resv : List Reservation)
    (hdi : ctx.api.describeInstances (filters ++ ctx.anyFilters) = .ok resv)
    (hshape : resv = [] ∨ ∃ rest, resv = ⟨[]⟩ :: rest) :
    vpcConfigForHost prefs ctx filters =
      .error ("failed to find instance matching filter: " ++
        FilterString ctx.filterStr filters) ∧
    ∃ pre, "failed to find instance matching filter: " ++
        FilterString ctx.filterStr filters =
      pre ++ FilterString ctx.filterStr filters := by
  refine ⟨?_, ⟨"failed to find instance matching filter: ", rfl⟩⟩
  unfold vpcConfigForHost
  rw [hdi]
  rcases hshape with h | ⟨rest, h⟩ <;> subst h <;> rfl

theorem C9_no_instance_error_contains_filters_witness :
    vpcConfigForHost prefsPlain (mkCtx apiEmpty) [⟨"tag:Name", ["x"]⟩] =
      .error ("failed to find instance matching filter: " ++
        FilterString (mkCtx apiEmpty).filterStr [⟨"tag:Name", ["x"]⟩]) ∧
    ∃ pre, "failed to find instance matching filter: " ++
        FilterString (mkCtx apiEmpty).filterStr [⟨"tag:Name", ["x"]⟩] =
      pre ++ FilterString (mkCtx apiEmpty).filterStr [⟨"tag:Name", ["x"]⟩] :=
  C9_no_instance_error_contains_filters prefsPlain (mkCtx apiEmpty)
    [⟨"tag:Name", ["x"]⟩] [] rfl (Or.inl rfl)

/-- C10 (counterexample) — two runs over identical query results and
preferences, differing only in the order in which the Go runtime happens
to enumerate the security-group map (which is not an input), return
different security-group lists when the instance has 11 distinct attached
groups: the claim that the selection is determined by the inputs alone is
false. -/
theorem C10_map_order_counterexample :
    ctxHostId.api = ctxHostRev.api ∧
    ctxHostId.anyFilters = ctxHostRev.anyFilters ∧
    vpcConfigForHost prefsPlain ctxHostId [] =
      .ok ⟨["subnet-h"],
        ["sg-00", "sg-01", "sg-02", "sg-03", "sg-04",
         "sg-05", "sg-06", "sg-07", "sg-08", "sg-09"], false⟩ ∧
    vpcConfigForHost prefsPlain ctxHostRev [] =
      .ok ⟨["subnet-h"],
        ["sg-10", "sg-09", "sg-08", "sg-07", "sg-06",
         "sg-05", "sg-04", "sg-03", "sg-02", "sg-01"], false⟩ ∧
    (["sg-00", "sg-01", "sg-02", "sg-03", "sg-04",
      "sg-05", "sg-06", "sg-07", "sg-08", "sg-09"] : List String) ≠
      ["sg-10", "sg-09", "sg-08", "sg-07", "sg-06",
       "sg-05", "sg-04", "sg-03", "sg-02", "sg-01"] := by
  refine ⟨rfl, rfl, rfl, rfl, by decide⟩

/-- C10 (amended) — explicit-host resolution is deterministic only up to
the runtime's map-enumeration order: for fixed query results with no
security-group filtering, every enumeration order of the key set yields a
security-group list that is a permutation of the instance's distinct
attached group identifiers whenever there are at most 10 of them, so the
resulting SET is determined by the inputs; with more than 10 distinct
groups the selected 10 depend on the enumeration order, which is not an
input. -/
theorem C10_sg_set_determined_by_inputs
    (prefs : Prefs) (ctx : Ctx) (filters : List Ec2Filter)
    (inst : Ec2Instance) (irest : List Ec2Instance) (rrest : List Reservation)
    (hdi : ctx.api.describeInstances (filters ++ ctx.anyFilters) =
      .ok (⟨inst :: irest⟩ :: rrest))
    (hsg : prefs.doFilterSgs = false)
    (horder : (ctx.mapOrder (hostSgKeys inst)).Perm (hostSgKeys inst))
    (hlen : (hostSgKeys inst).length ≤ 10) :
    ∃ cfg, vpcConfigForHost prefs ctx filters = .ok cfg ∧
      cfg.securityGroups.Perm (hostSgKeys inst) := by
  refine ⟨⟨[inst.subnetId], (ctx.mapOrder (hostSgKeys inst)).take 10,
    prefs.netPublicIp⟩, ?_, ?_⟩
  · unfold vpcConfigForHost hostSgList
    rw [hdi, hsg]
    rfl
  · have hl : (ctx.mapOrder (hostSgKeys inst)).length ≤ 10 := by
      rw [horder.length_eq]
      exact hlen
    rw [List.take_of_length_le hl]
    exact horder

theorem C10_sg_set_determined_by_inputs_witness :
    ∃ cfg, vpcConfigForHost prefsPlain (mkCtx apiHostTwo) [] = .ok cfg ∧
      cfg.securityGroups.Perm (hostSgKeys instTwoSgs) :=
  C10_sg_set_determined_by_inputs prefsPlain (mkCtx apiHostTwo) [] instTwoSgs
    [] [] rfl rfl (List.Perm.refl _) (by decide)

/-- C7 — A token matching none of the earlier cases maps fixed resource-id
prefixes to fixed attribute names.  The `src/unnamed/part_000` parser maps
`sg-` to `group-id` as the claim states; the `src/overrun/filter.go`
variant labels it `security-id` instead.  Evaluation of all four prefixes
on the canonical parser and of the failing input on the legacy one. -/
theorem C7_resource_id_shorthand :
    ParseEc2Filter "i-0123abcd" none = (true, ⟨"instance-id", ["i-0123abcd"]⟩) ∧
    ParseEc2Filter "subnet-0a1b" none = (true, ⟨"subnet-id", ["subnet-0a1b"]⟩) ∧
    ParseEc2Filter "vpc-0a1b" none = (true, ⟨"vpc-id", ["vpc-0a1b"]⟩) ∧
    ParseEc2Filter "sg-0a1b" none = (true, ⟨"group-id", ["sg-0a1b"]⟩) ∧
    ParseEc2FilterLegacy "sg-0a1b" none = (true, ⟨"security-id", ["sg-0a1b"]⟩) := by
  refine ⟨by decide, by decide, by decide, by decide, by decide⟩

end EcsUtils
